import Mathlib

/-!
Shallow embedding of the viaductecho database layer
(`src/database/operations.py`, `src/database/api_operations.py`,
`src/database/event_operations.py`, `src/api/routes/articles.py`,
`src/api/utils/mappers.py`).

Stores are embedded as Lean lists of rows; each Python method becomes a pure
Lean function on the store (stateful methods return the updated store).
Cryptographic digests (SHA-256 for event hashes, MD5 for URL hashes) are
deterministic functions of their input string; the embedding represents a
digest by its preimage string, so equality of digests is equality of
preimages (the digests are treated as collision-free, which is the design
assumption the code itself relies on).
-/

namespace ViaductEcho

/-! ### Python string / regex primitives used by the database layer -/

/-- Python regex `\w` restricted to ASCII: letters, digits and underscore. -/
def pyIsWordChar (c : Char) : Bool :=
  c.isAlphanum || c = '_'

/-- Python regex `\s` / `str.strip()` whitespace (ASCII). -/
def pyIsSpace (c : Char) : Bool :=
  c = ' ' || c = '\t' || c = '\n' || c = '\r' || c = '\x0b' || c = '\x0c'

/-- `str.lower()` (ASCII model). -/
def pyLower (s : String) : String :=
  String.mk (s.data.map Char.toLower)

/-- Drop the given characters from both ends of a character list. -/
def stripEnds (p : Char → Bool) (l : List Char) : List Char :=
  ((l.dropWhile p).reverse.dropWhile p).reverse

/-- `str.strip()`: remove whitespace from both ends. -/
def pyStrip (s : String) : String :=
  String.mk (stripEnds pyIsSpace s.data)

/-- One pass of `re.sub(r"[-\s]+", "-", s)`: every maximal run of hyphens and
whitespace becomes a single hyphen.  The boolean records whether the previous
character belonged to such a run. -/
def collapseDashSpace : Bool → List Char → List Char
  | _, [] => []
  | prev, c :: cs =>
    if pyIsSpace c || c = '-' then
      if prev then collapseDashSpace true cs
      else '-' :: collapseDashSpace true cs
    else c :: collapseDashSpace false cs

/-! ### `EventOperations._create_slug`
`event_operations.py` lines 29-34:
```
slug = re.sub(r"[^\w\s-]", "", text.lower())
slug = re.sub(r"[-\s]+", "-", slug).strip("-")
return slug[:200]
``` -/

def createSlug (text : String) : String :=
  let s1 := (pyLower text).data.filter fun c => pyIsWordChar c || pyIsSpace c || c = '-'
  let s2 := collapseDashSpace false s1
  let s3 := stripEnds (fun c => c = '-') s2
  String.mk (s3.take 200)

/-- The slug computation exactly as the claim words it: the kept character
class is "alphanumerics/space/hyphen" (no underscore). -/
def claimSlug (text : String) : String :=
  let s1 := (pyLower text).data.filter fun c => c.isAlphanum || pyIsSpace c || c = '-'
  let s2 := collapseDashSpace false s1
  let s3 := stripEnds (fun c => c = '-') s2
  String.mk (s3.take 200)

/-! ### `datetime` values and `strftime("%Y-%m-%d")` -/

/-- A Python `datetime.datetime` value (to second granularity, which is all
the embedded code inspects). -/
structure PyDateTime where
  year : Nat
  month : Nat
  day : Nat
  hour : Nat
  minute : Nat
  second : Nat
deriving DecidableEq, Repr

/-- Zero-padded two-digit field of `strftime`. -/
def pad2 (n : Nat) : String :=
  if n < 10 then "0" ++ toString n else toString n

/-- Zero-padded four-digit year field of `strftime("%Y")`. -/
def pad4 (n : Nat) : String :=
  if n < 10 then "000" ++ toString n
  else if n < 100 then "00" ++ toString n
  else if n < 1000 then "0" ++ toString n
  else toString n

/-- `dt.strftime("%Y-%m-%d")`. -/
def dateStr (dt : PyDateTime) : String :=
  pad4 dt.year ++ "-" ++ pad2 dt.month ++ "-" ++ pad2 dt.day

/-- `datetime` comparison (`<`), lexicographic on the fields. -/
def dtLt (a b : PyDateTime) : Bool :=
  if a.year ≠ b.year then a.year < b.year
  else if a.month ≠ b.month then a.month < b.month
  else if a.day ≠ b.day then a.day < b.day
  else if a.hour ≠ b.hour then a.hour < b.hour
  else if a.minute ≠ b.minute then a.minute < b.minute
  else a.second < b.second

/-! ### `EventOperations._create_event_hash`
`event_operations.py` lines 177-185:
```
normalized_title = re.sub(r"[^\w]", "", title.lower())[:50]
date_str = start_datetime.strftime("%Y-%m-%d")
hash_input = f"{venue_id}:{date_str}:{normalized_title}"
return hashlib.sha256(hash_input.encode()).hexdigest()
``` -/

/-- SHA-256 hex digest, represented by its preimage (the digest is a
deterministic function of the input string, assumed collision-free). -/
def sha256Hex (s : String) : String := s

/-- Title normalization inside `_create_event_hash`:
`re.sub(r"[^\w]", "", title.lower())[:50]`. -/
def normalizeTitle (title : String) : String :=
  String.mk (((pyLower title).data.filter pyIsWordChar).take 50)

def createEventHash (venueId : Nat) (startDatetime : PyDateTime) (title : String) : String :=
  sha256Hex (toString venueId ++ ":" ++ dateStr startDatetime ++ ":" ++ normalizeTitle title)

/-- Title normalization exactly as the claim words it: strip all
non-alphanumeric characters and truncate to 50 (no lowercasing, underscore
not kept). -/
def claimNormalizeTitle (title : String) : String :=
  String.mk ((title.data.filter Char.isAlphanum).take 50)

/-- The event-hash computation exactly as the claim words it. -/
def claimEventHash (venueId : Nat) (startDatetime : PyDateTime) (title : String) : String :=
  sha256Hex (toString venueId ++ ":" ++ dateStr startDatetime ++ ":" ++ claimNormalizeTitle title)

/-! ### Decimal rendering of Python integers
`f"{base_slug}-{counter}"` renders the counter in decimal.  The printer is
written with explicit fuel so that it reduces by kernel computation; `n`
itself always suffices as fuel. -/

def natDecAux : Nat → Nat → List Char → List Char
  | 0, _, acc => acc
  | fuel + 1, n, acc =>
    if n = 0 then acc
    else natDecAux fuel (n / 10) (Nat.digitChar (n % 10) :: acc)

/-- Decimal representation of a natural number (Python `str(int)`). -/
def natDec (n : Nat) : String :=
  if n = 0 then "0" else String.mk (natDecAux n n [])

/-! ### Venue rows and `EventOperations.get_or_create_venue` -/

/-- A row of the `venues` table (`models.py` lines 90-127). -/
structure VenueRow where
  id : Nat
  name : String
  slug : String
  address_line1 : Option String
  address_line2 : Option String
  town : Option String
  postcode : Option String
  latitude : Option String
  longitude : Option String
  description : Option String
  venue_type : Option String
  capacity : Option Nat
  website_url : Option String
  phone : Option String
  image_url : Option String
  source_name : Option String
  source_id : Option String
deriving DecidableEq, Repr

/-- The `venue_data` dict passed to `get_or_create_venue`.  `name` is accessed
with `venue_data["name"]` on the creation path, so it is modelled as present;
all other keys are optional.  Numeric source ids arrive already rendered by
`str(...)`. -/
structure VenueData where
  name : String
  postcode : Option String
  source_name : Option String
  source_id : Option String
  address_line1 : Option String
  address_line2 : Option String
  town : Option String
  latitude : Option String
  longitude : Option String
  description : Option String
  venue_type : Option String
  capacity : Option Nat
  website_url : Option String
  phone : Option String
  image_url : Option String
deriving DecidableEq, Repr

/-- Python truthiness of an optional string (`None` and `""` are falsy). -/
def truthy : Option String → Bool
  | none => false
  | some s => s ≠ ""

/-- Next autoincrement primary key for the modelled store. -/
def nextId (ids : List Nat) : Nat :=
  ids.foldr Nat.max 0 + 1

/-- The slug-uniquification loop of `get_or_create_venue` (lines 104-108):
```
base_slug = slug
counter = 1
while self.session.query(Venue).filter_by(slug=slug).first():
    slug = f"{base_slug}-{counter}"
    counter += 1
```
The loop scans candidates `base`, `base-1`, `base-2`, …; `store.length + 1`
iterations always suffice to find a free one (proved below), so the fuel
never runs out on the reachable branch.  `slugCand` is
`f"{base_slug}-{counter}"`. -/
def slugCand (base : String) (counter : Nat) : String :=
  base ++ "-" ++ natDec counter

def uniquifySlugGo (store : List VenueRow) (base : String) : Nat → Nat → String
  | counter, 0 => slugCand base counter
  | counter, fuel + 1 =>
    if store.any fun v => v.slug == slugCand base counter then
      uniquifySlugGo store base (counter + 1) fuel
    else slugCand base counter

def uniquifySlug (store : List VenueRow) (base : String) : String :=
  if store.any fun v => v.slug == base then
    uniquifySlugGo store base 1 (store.length + 1)
  else base

/-- The venue built on the creation path (lines 110-131). -/
def buildVenue (d : VenueData) (slug : String) (id : Nat) : VenueRow :=
  { id := id
    name := d.name
    slug := slug
    address_line1 := d.address_line1
    address_line2 := d.address_line2
    town := some (d.town.getD "Stockport")
    postcode := d.postcode
    latitude := d.latitude
    longitude := d.longitude
    description := d.description
    venue_type := d.venue_type
    capacity := d.capacity
    website_url := d.website_url
    phone := d.phone
    image_url := d.image_url
    source_name := d.source_name
    source_id := if truthy d.source_id then some (d.source_id.getD "") else none }

/-- Replace the first element satisfying `p` by its image under `f`
(an ORM `query(...).first()` followed by field mutation and commit). -/
def updateFirst (p : α → Bool) (f : α → α) : List α → List α
  | [] => []
  | a :: rest => if p a then f a :: rest else a :: updateFirst p f rest

/-- `EventOperations.get_or_create_venue` (`event_operations.py` lines
67-136), returning the resulting venue together with the updated store. -/
def getOrCreateVenue (d : VenueData) (store : List VenueRow) : VenueRow × List VenueRow :=
  -- Try to find by source first
  let bySource : Option VenueRow :=
    if truthy d.source_name && truthy d.source_id then
      store.find? fun v => v.source_name == d.source_name && v.source_id == d.source_id
    else none
  match bySource with
  | some v => (v, store)
  | none =>
    -- Try to find by name and postcode
    let byNamePostcode : Option VenueRow :=
      if (d.name != "") && truthy d.postcode then
        store.find? fun v => v.name == d.name && v.postcode == d.postcode
      else none
    match byNamePostcode with
    | some v =>
      -- Update source info if we have it
      if truthy d.source_name && !truthy v.source_name then
        let v' := { v with
          source_name := d.source_name
          source_id := some (d.source_id.getD "") }
        (v', updateFirst (fun w => w.name == d.name && w.postcode == d.postcode)
          (fun _ => v') store)
      else (v, store)
    | none =>
      -- Create new venue
      let slug := uniquifySlug store (createSlug d.name)
      let v := buildVenue d slug (nextId (store.map VenueRow.id))
      (v, store ++ [v])

/-! ### Event rows and the event operations -/

/-- A row of the `events` table (`models.py` lines 163-211).  `event_hash`
is unique (DB constraint); `slug` carries no uniqueness constraint.
Prices are `Numeric(10, 2)` columns, modelled by their decimal rendering. -/
structure EventRow where
  id : Nat
  title : String
  slug : String
  description : Option String
  short_description : Option String
  start_datetime : PyDateTime
  end_datetime : Option PyDateTime
  doors_time : Option String
  venue_id : Nat
  event_type : String
  image_url : Option String
  ticket_url : Option String
  price_min : Option String
  price_max : Option String
  is_free : Bool
  source_name : String
  source_type : String
  source_id : Option String
  source_url : Option String
  event_hash : String
  status : String
  is_featured : Bool
deriving DecidableEq, Repr

/-- The `event_data` dict consumed by `insert_event`.  Keys read with
`event_data[...]` (`title`, `start_datetime`, `source_name`, `source_type`)
are modelled as present; keys read with `.get` are optional. -/
structure EventData where
  title : String
  start_datetime : PyDateTime
  description : Option String
  short_description : Option String
  end_datetime : Option PyDateTime
  doors_time : Option String
  event_type : Option String
  image_url : Option String
  ticket_url : Option String
  price_min : Option String
  price_max : Option String
  is_free : Option Bool
  source_name : String
  source_type : String
  source_id : Option String
  source_url : Option String
deriving DecidableEq, Repr

/-- `EventOperations.insert_event` (`event_operations.py` lines 193-259):
compute the dedup hash; if a row with that hash exists return `None` leaving
the store untouched, otherwise build the slug `{title-slug}-{YYYY-MM-DD}`,
coerce prices with `Decimal(str(...))` (identity on the decimal rendering)
and insert the row with status `"active"`. -/
def insertEvent (d : EventData) (venue : VenueRow) (store : List EventRow) :
    Option EventRow × List EventRow :=
  let eventHash := createEventHash venue.id d.start_datetime d.title
  if store.any fun e => e.event_hash == eventHash then (none, store)
  else
    let slug := createSlug d.title ++ "-" ++ dateStr d.start_datetime
    let e : EventRow :=
      { id := nextId (store.map EventRow.id)
        title := d.title
        slug := slug
        description := d.description
        short_description := d.short_description
        start_datetime := d.start_datetime
        end_datetime := d.end_datetime
        doors_time := d.doors_time
        venue_id := venue.id
        event_type := d.event_type.getD "other"
        image_url := d.image_url
        ticket_url := d.ticket_url
        price_min := d.price_min
        price_max := d.price_max
        is_free := d.is_free.getD false
        source_name := d.source_name
        source_type := d.source_type
        source_id := if truthy d.source_id then some (d.source_id.getD "") else none
        source_url := d.source_url
        event_hash := eventHash
        status := "active"
        is_featured := false }
    (some e, store ++ [e])

/-- `EventOperations.get_event_by_id` (lines 261-263):
`filter_by(id=event_id, status="active").first()`. -/
def getEventById (store : List EventRow) (eventId : Nat) : Option EventRow :=
  store.find? fun e => e.id == eventId && e.status == "active"

/-- `EventOperations.get_event_by_slug` (lines 265-267):
`filter_by(slug=slug, status="active").first()`. -/
def getEventBySlug (store : List EventRow) (slug : String) : Option EventRow :=
  store.find? fun e => e.slug == slug && e.status == "active"

/-- The row filter of `mark_past_events`: status `"active"` and
`start_datetime < now`. -/
def isPastActive (now : PyDateTime) (e : EventRow) : Bool :=
  e.status == "active" && dtLt e.start_datetime now

/-- `EventOperations.mark_past_events` (lines 395-409): the bulk
`UPDATE ... SET status='past'` over the filtered rows; the returned count is
the update's row count. -/
def markPastEvents (now : PyDateTime) (store : List EventRow) : List EventRow × Nat :=
  (store.map fun e => if isPastActive now e then { e with status := "past" } else e,
   (store.filter (isPastActive now)).length)

/-! ### Article rows and `DatabaseOperations` / `APIOperations` -/

/-- A row of the `rss_articles` table (`models.py` lines 21-49).
`created_at` is the insertion timestamp, modelled as an ordinal. -/
structure RSSArticle where
  id : Nat
  original_title : String
  original_link : String
  original_summary : Option String
  original_source : String
  source_type : Option String
  original_pubdate : Option PyDateTime
  url_hash : String
  created_at : Nat
  processed : Bool
  extracted_content : Option String
  ai_summary : Option String
  image_url : Option String
  status : String
deriving DecidableEq, Repr

/-- MD5 hex digest, represented by its preimage (deterministic, assumed
collision-free; see `sha256Hex`). -/
def md5Hex (s : String) : String := s

/-- `DatabaseOperations._hash_url` (`operations.py` lines 33-41). -/
def hashUrl (url : String) : String :=
  md5Hex url

/-- `DatabaseOperations.update_article_content` (`operations.py` lines
106-124): look up by URL hash; if found, set `extracted_content` and
(when truthy) `image_url`; otherwise do nothing. -/
def updateArticleContent (store : List RSSArticle) (articleLink extractedContent : String)
    (imageUrl : Option String) : List RSSArticle :=
  updateFirst (fun a => a.url_hash == hashUrl articleLink)
    (fun a =>
      let a := { a with extracted_content := some extractedContent }
      if truthy imageUrl then { a with image_url := imageUrl } else a)
    store

/-- `DatabaseOperations.update_article_ai_summary` (`operations.py` lines
126-140). -/
def updateArticleAiSummary (store : List RSSArticle) (articleLink aiSummary : String) :
    List RSSArticle :=
  updateFirst (fun a => a.url_hash == hashUrl articleLink)
    (fun a => { a with ai_summary := some aiSummary }) store

/-- `DatabaseOperations.mark_processed` (`operations.py` lines 142-156). -/
def markProcessed (store : List RSSArticle) (articleLink : String) : List RSSArticle :=
  updateFirst (fun a => a.url_hash == hashUrl articleLink)
    (fun a => { a with processed := true }) store

/-- `DatabaseOperations.article_exists` (`operations.py` lines 72-82). -/
def articleExists (store : List RSSArticle) (url : String) : Bool :=
  store.any fun a => a.url_hash == hashUrl url

/-- The filter stage of `APIOperations.get_articles_paginated`
(`api_operations.py` lines 37-44). -/
def articleQuery (store : List RSSArticle) (source : Option String)
    (processedOnly : Bool) : List RSSArticle :=
  let q := if processedOnly then store.filter RSSArticle.processed else store
  if truthy source then q.filter fun a => a.original_source == source.getD "" else q

/-- `order_by(desc(RSSArticle.created_at))`. -/
def orderByCreatedDesc (q : List RSSArticle) : List RSSArticle :=
  q.mergeSort fun a b => b.created_at ≤ a.created_at

/-- `APIOperations.get_articles_paginated` (`api_operations.py` lines 13-52):
clamp `page` to `≥ 1` and `per_page` into `[1, 100]`, filter, count, then
order by creation time descending and slice `[offset, offset + per_page)`. -/
def getArticlesPaginated (store : List RSSArticle) (page perPage : Nat)
    (source : Option String) (processedOnly : Bool) : List RSSArticle × Nat :=
  let page := max 1 page
  let perPage := min 100 (max 1 perPage)
  let offset := (page - 1) * perPage
  let q := articleQuery store source processedOnly
  let totalCount := q.length
  (((orderByCreatedDesc q).drop offset).take perPage, totalCount)

/-- `l₁` occurs as a contiguous sublist of `l₂`. -/
def listInfix (pat : List Char) : List Char → Bool
  | [] => pat.isEmpty
  | c :: rest => pat.isPrefixOf (c :: rest) || listInfix pat rest

/-- Python substring test used to model SQL `LIKE '%pat%'`. -/
def containsSub (pat s : String) : Bool :=
  listInfix pat.data s.data

/-- `LIKE` on a nullable lower-cased column: `NULL` never matches. -/
def likeOpt (pat : String) : Option String → Bool
  | none => false
  | some s => containsSub pat (pyLower s)

/-- The row filter of `search_articles`: processed, and the lower-cased
pattern occurs in the title, the summary or the extracted content. -/
def searchMatches (pat : String) (a : RSSArticle) : Bool :=
  a.processed &&
    (containsSub pat (pyLower a.original_title) ||
      likeOpt pat a.original_summary ||
      likeOpt pat a.extracted_content)

/-- `APIOperations.search_articles` (`api_operations.py` lines 81-119).  The
boolean of the result records whether a storage query was issued: the short-
query guard returns `([], 0)` before touching the session. -/
def searchArticles (store : List RSSArticle) (query : String) (page perPage : Nat) :
    (List RSSArticle × Nat) × Bool :=
  if query = "" || (pyStrip query).length < 2 then (([], 0), false)
  else
    let page := max 1 page
    let perPage := min 100 (max 1 perPage)
    let offset := (page - 1) * perPage
    let pat := pyLower (pyStrip query)
    let base := store.filter (searchMatches pat)
    let totalCount := base.length
    ((((orderByCreatedDesc base).drop offset).take perPage, totalCount), true)

/-! ### Pagination metadata
`create_pagination_info` (`api/routes/articles.py` lines 31-42 and
`api/utils/mappers.py` lines 44-56, identical logic). -/

structure PaginationInfo where
  page : Nat
  per_page : Nat
  total_items : Nat
  total_pages : Nat
  has_next : Bool
  has_prev : Bool
deriving DecidableEq, Repr

/-- `math.ceil(total_items / per_page) if total_items > 0 else 0`, then
`has_next = page < total_pages`, `has_prev = page > 1`. -/
def createPaginationInfo (page perPage totalItems : Nat) : PaginationInfo :=
  let totalPages := if totalItems > 0 then (totalItems + perPage - 1) / perPage else 0
  { page := page
    per_page := perPage
    total_items := totalItems
    total_pages := totalPages
    has_next := page < totalPages
    has_prev := page > 1 }

/-- The `article_data` dict consumed by `insert_article` (`operations.py`
lines 84-104).  Keys read with `article_data[...]` are modelled as present;
keys read with `.get` are optional. -/
structure ArticleData where
  original_title : String
  original_link : String
  original_summary : Option String
  original_source : String
  source_type : Option String
  original_pubdate : Option PyDateTime
deriving DecidableEq, Repr

/-- `DatabaseOperations.insert_article` (`operations.py` lines 84-104):
build the row (defaults `original_summary=""`, `source_type="RSS"`,
`processed=False`, `status="published"`), hash the link, insert and commit.
The autoincrement id and the `now()` creation stamp are modelled as fresh
ordinals. -/
def insertArticle (d : ArticleData) (store : List RSSArticle) :
    RSSArticle × List RSSArticle :=
  let a : RSSArticle :=
    { id := nextId (store.map RSSArticle.id)
      original_title := d.original_title
      original_link := d.original_link
      original_summary := some (d.original_summary.getD "")
      original_source := d.original_source
      source_type := some (d.source_type.getD "RSS")
      original_pubdate := d.original_pubdate
      url_hash := hashUrl d.original_link
      created_at := nextId (store.map RSSArticle.created_at)
      processed := false
      extracted_content := none
      ai_summary := none
      image_url := none
      status := "published" }
  (a, store ++ [a])

/-- `DatabaseOperations.get_article_by_id` (`operations.py` lines 158-164):
`filter_by(id=article_id).first()` (no processed filter). -/
def dbGetArticleById (store : List RSSArticle) (articleId : Nat) : Option RSSArticle :=
  store.find? fun a => a.id == articleId

/-- `DatabaseOperations.get_all_articles` (`operations.py` lines 166-189):
optional status filter (skipped for a falsy filter or `"all"`), order by
creation time descending, total count, then offset/limit. -/
def getAllArticles (store : List RSSArticle) (limit offset : Nat)
    (statusFilter : Option String) : List RSSArticle × Nat :=
  let q := match statusFilter with
    | some sf => if sf != "" && sf != "all" then store.filter fun a => a.status == sf else store
    | none => store
  let ordered := orderByCreatedDesc q
  (((ordered.drop offset).take limit), q.length)

/-- The `update_data` dict consumed by `update_article`: one optional value
per updatable column (an absent key leaves the column alone; payloads carry
values, so assigning `NULL` through the dict is not modelled). -/
structure ArticleUpdate where
  original_title : Option String
  original_link : Option String
  original_summary : Option String
  original_source : Option String
  source_type : Option String
  original_pubdate : Option PyDateTime
  processed : Option Bool
  extracted_content : Option String
  ai_summary : Option String
  image_url : Option String
  status : Option String
deriving DecidableEq, Repr

/-- The `setattr` loop of `update_article`, followed by the URL-hash
recomputation when `original_link` is part of the update. -/
def applyArticleUpdate (u : ArticleUpdate) (a : RSSArticle) : RSSArticle :=
  let a := match u.original_title with | some v => { a with original_title := v } | none => a
  let a := match u.original_summary with | some v => { a with original_summary := some v } | none => a
  let a := match u.original_source with | some v => { a with original_source := v } | none => a
  let a := match u.source_type with | some v => { a with source_type := some v } | none => a
  let a := match u.original_pubdate with | some v => { a with original_pubdate := some v } | none => a
  let a := match u.processed with | some v => { a with processed := v } | none => a
  let a := match u.extracted_content with | some v => { a with extracted_content := some v } | none => a
  let a := match u.ai_summary with | some v => { a with ai_summary := some v } | none => a
  let a := match u.image_url with | some v => { a with image_url := some v } | none => a
  let a := match u.status with | some v => { a with status := v } | none => a
  match u.original_link with
  | some v => { a with original_link := v, url_hash := hashUrl v }
  | none => a

/-- `DatabaseOperations.update_article` (`operations.py` lines 191-215):
look up by id; `None` when missing, else apply the update to that row and
return it. -/
def updateArticle (store : List RSSArticle) (articleId : Nat) (u : ArticleUpdate) :
    Option RSSArticle × List RSSArticle :=
  match store.find? fun a => a.id == articleId with
  | none => (none, store)
  | some a =>
    let a' := applyArticleUpdate u a
    (some a', updateFirst (fun b => b.id == articleId) (fun _ => a') store)

/-- `DatabaseOperations.delete_article` (`operations.py` lines 217-232):
soft delete — set status `"deleted"`, returning whether the row existed. -/
def deleteArticle (store : List RSSArticle) (articleId : Nat) : Bool × List RSSArticle :=
  match store.find? fun a => a.id == articleId with
  | none => (false, store)
  | some _ =>
    (true, updateFirst (fun b => b.id == articleId)
      (fun b => { b with status := "deleted" }) store)

/-- `APIOperations.get_recent_articles` (`api_operations.py` lines 54-79):
processed articles created since the cutoff (`now() - hours`, modelled as
an ordinal), newest first, limit clamped into `[1, 100]`. -/
def getRecentArticles (store : List RSSArticle) (cutoffTime limit : Nat) :
    List RSSArticle :=
  let limit := min 100 (max 1 limit)
  (orderByCreatedDesc
    (store.filter fun a => decide (cutoffTime ≤ a.created_at) && a.processed)).take limit

/-- The query of `APIOperations.get_article_by_id` (`api_operations.py`
lines 145-155): `and_(id == article_id, processed == True)`, first row. -/
def apiGetArticleById (store : List RSSArticle) (articleId : Nat) : Option RSSArticle :=
  store.find? fun a => a.id == articleId && a.processed

/-- One row of `get_sources_with_stats` (`api_operations.py` lines
160-197). -/
structure SourceStats where
  name : String
  article_count : Nat
  processed_count : Nat
  latest_article : Option Nat
deriving DecidableEq, Repr

/-- Distinct sources in first-appearance order (the `GROUP BY` keys). -/
def distinctSources (l : List RSSArticle) : List String :=
  l.foldl (fun acc a =>
    if acc.contains a.original_source then acc else acc ++ [a.original_source]) []

/-- The aggregate of `get_sources_with_stats`: over processed articles,
group by source; per group the row count, the processed count
(`count(nullif(processed, False))`) and the latest creation stamp; ordered
by article count descending (ties in group order). -/
def getSourcesWithStats (store : List RSSArticle) : List SourceStats :=
  let q := store.filter RSSArticle.processed
  let stats := (distinctSources q).map fun src =>
    let grp := q.filter fun a => a.original_source == src
    { name := src
      article_count := grp.length
      processed_count := (grp.filter RSSArticle.processed).length
      latest_article :=
        match grp.map RSSArticle.created_at with
        | [] => none
        | x :: xs => some (xs.foldl Nat.max x) : SourceStats }
  stats.mergeSort fun a b => b.article_count ≤ a.article_count

/-- The count query of `APIOperations.get_article_count`
(`api_operations.py` lines 199-216). -/
def getArticleCount (store : List RSSArticle) (processedOnly : Bool) : Nat :=
  (if processedOnly then store.filter RSSArticle.processed else store).length

/-- The payload of `APIOperations.health_check` (`api_operations.py` lines
218-247): the healthy dict carries the counts, the unhealthy one does not. -/
structure HealthStatus where
  status : String
  total_articles : Option Nat
  recent_articles_24h : Option Nat
  database_connected : Bool
deriving DecidableEq, Repr

/-! ### Connection liveness and `DatabaseOperations._run_with_reconnect`

The session model: a session whose underlying connection has dropped raises
`OperationalError` on every statement it executes; `self.Session()` always
hands back a usable session.  `operations.py` lines 43-70:

```
def _reconnect_if_needed(self):
    try:
        self.session.execute(text("SELECT 1"))
    except (OperationalError, InvalidRequestError):
        self.session.rollback(); self.session.close()
        self.session = self.Session()

def _run_with_reconnect(self, op):
    self._reconnect_if_needed()
    try:
        return op()
    except (OperationalError, InvalidRequestError):
        self._reconnect_if_needed()
        return op()
```
-/

structure Session where
  broken : Bool
deriving DecidableEq, Repr

/-- Outcome of a database call: a value, or a connectivity error
(`OperationalError` / `InvalidRequestError`) propagating to the caller. -/
inductive DbResult (α : Type) where
  | ok : α → DbResult α
  | connError : DbResult α
deriving DecidableEq, Repr

/-- Executing one statement on the session: fails iff the connection has
dropped. -/
def rawCall (s : Session) (a : α) : DbResult α :=
  if s.broken then .connError else .ok a

/-- `DatabaseOperations._reconnect_if_needed`: probe with `SELECT 1`; on a
connectivity error replace the session with a fresh one. -/
def reconnectIfNeeded (s : Session) : Session :=
  match rawCall s () with
  | .ok _ => s
  | .connError => { broken := false }

/-- `DatabaseOperations._run_with_reconnect`. -/
def runWithReconnect (op : Session → DbResult α) (s : Session) : DbResult α :=
  let s1 := reconnectIfNeeded s
  match op s1 with
  | .ok a => .ok a
  | .connError => op (reconnectIfNeeded s1)

/-! Connection-aware forms of the layer's operations.  Methods defined in
`DatabaseOperations` (`operations.py`) route every session access through
`_run_with_reconnect`; the methods added in `APIOperations`
(`api_operations.py`) and `EventOperations` (`event_operations.py`) call
`self.session` directly. -/

/-- `article_exists`, wrapped (`operations.py` lines 72-82). -/
def articleExistsRun (s : Session) (store : List RSSArticle) (url : String) : DbResult Bool :=
  runWithReconnect (fun s' => rawCall s' (articleExists store url)) s

/-- `update_article_content`, wrapped (`operations.py` lines 106-124). -/
def updateArticleContentRun (s : Session) (store : List RSSArticle)
    (articleLink extractedContent : String) (imageUrl : Option String) :
    DbResult (List RSSArticle) :=
  runWithReconnect
    (fun s' => rawCall s' (updateArticleContent store articleLink extractedContent imageUrl)) s

/-- `update_article_ai_summary`, wrapped (`operations.py` lines 126-140). -/
def updateArticleAiSummaryRun (s : Session) (store : List RSSArticle)
    (articleLink aiSummary : String) : DbResult (List RSSArticle) :=
  runWithReconnect
    (fun s' => rawCall s' (updateArticleAiSummary store articleLink aiSummary)) s

/-- `mark_processed`, wrapped (`operations.py` lines 142-156). -/
def markProcessedRun (s : Session) (store : List RSSArticle) (articleLink : String) :
    DbResult (List RSSArticle) :=
  runWithReconnect (fun s' => rawCall s' (markProcessed store articleLink)) s

/-- `APIOperations.get_articles_paginated` executes its query directly on
`self.session` (`api_operations.py` lines 13-52): no probe, no retry. -/
def getArticlesPaginatedRun (s : Session) (store : List RSSArticle) (page perPage : Nat)
    (source : Option String) (processedOnly : Bool) : DbResult (List RSSArticle × Nat) :=
  rawCall s (getArticlesPaginated store page perPage source processedOnly)

/-- `APIOperations.search_articles` likewise hits the session directly
(after its short-query guard, which issues no query at all). -/
def searchArticlesRun (s : Session) (store : List RSSArticle) (query : String)
    (page perPage : Nat) : DbResult (List RSSArticle × Nat) :=
  let r := searchArticles store query page perPage
  if r.2 then rawCall s r.1 else .ok r.1

/-- `EventOperations.get_or_create_venue` queries `self.session` directly
(`event_operations.py` lines 67-136): no probe, no retry. -/
def getOrCreateVenueRun (s : Session) (d : VenueData) (store : List VenueRow) :
    DbResult (VenueRow × List VenueRow) :=
  rawCall s (getOrCreateVenue d store)

/-- `EventOperations.insert_event` queries `self.session` directly, and its
`except Exception` handler turns any failure — connectivity errors included —
into a rollback and `return None` (`event_operations.py` lines 256-259). -/
def insertEventRun (s : Session) (d : EventData) (venue : VenueRow)
    (store : List EventRow) : DbResult (Option EventRow × List EventRow) :=
  match rawCall s (insertEvent d venue store) with
  | .ok r => .ok r
  | .connError => .ok (none, store)

/-- `insert_article`, wrapped (`operations.py` lines 84-104). -/
def insertArticleRun (s : Session) (d : ArticleData) (store : List RSSArticle) :
    DbResult (RSSArticle × List RSSArticle) :=
  runWithReconnect (fun s' => rawCall s' (insertArticle d store)) s

/-- `DatabaseOperations.get_article_by_id`, wrapped (`operations.py` lines
158-164). -/
def dbGetArticleByIdRun (s : Session) (store : List RSSArticle) (articleId : Nat) :
    DbResult (Option RSSArticle) :=
  runWithReconnect (fun s' => rawCall s' (dbGetArticleById store articleId)) s

/-- `get_all_articles`, wrapped (`operations.py` lines 166-189). -/
def getAllArticlesRun (s : Session) (store : List RSSArticle) (limit offset : Nat)
    (statusFilter : Option String) : DbResult (List RSSArticle × Nat) :=
  runWithReconnect (fun s' => rawCall s' (getAllArticles store limit offset statusFilter)) s

/-- `update_article`, wrapped (`operations.py` lines 191-215). -/
def updateArticleRun (s : Session) (store : List RSSArticle) (articleId : Nat)
    (u : ArticleUpdate) : DbResult (Option RSSArticle × List RSSArticle) :=
  runWithReconnect (fun s' => rawCall s' (updateArticle store articleId u)) s

/-- `delete_article`, wrapped (`operations.py` lines 217-232). -/
def deleteArticleRun (s : Session) (store : List RSSArticle) (articleId : Nat) :
    DbResult (Bool × List RSSArticle) :=
  runWithReconnect (fun s' => rawCall s' (deleteArticle store articleId)) s

/-- `APIOperations.get_recent_articles` hits the session directly
(`api_operations.py` lines 54-79): no probe, no retry, no handler. -/
def getRecentArticlesRun (s : Session) (store : List RSSArticle) (cutoffTime limit : Nat) :
    DbResult (List RSSArticle) :=
  rawCall s (getRecentArticles store cutoffTime limit)

/-- `APIOperations.get_article_by_id` executes directly but wraps the query
in `except Exception: return None` (`api_operations.py` lines 145-158). -/
def apiGetArticleByIdRun (s : Session) (store : List RSSArticle) (articleId : Nat) :
    DbResult (Option RSSArticle) :=
  match rawCall s (apiGetArticleById store articleId) with
  | .ok r => .ok r
  | .connError => .ok none

/-- `get_sources_with_stats` executes directly but its
`except Exception` returns `[]` (`api_operations.py` lines 160-197). -/
def getSourcesWithStatsRun (s : Session) (store : List RSSArticle) :
    DbResult (List SourceStats) :=
  match rawCall s (getSourcesWithStats store) with
  | .ok r => .ok r
  | .connError => .ok []

/-- `get_article_count` executes directly but its `except Exception`
returns `0` (`api_operations.py` lines 199-216). -/
def getArticleCountRun (s : Session) (store : List RSSArticle) (processedOnly : Bool) :
    DbResult Nat :=
  match rawCall s (getArticleCount store processedOnly) with
  | .ok n => .ok n
  | .connError => .ok 0

/-- `health_check` (`api_operations.py` lines 218-247): `get_article_count`
swallows its own error (yielding 0), then `get_recent_articles` is the
first call that can raise; the handler returns the unhealthy payload.  On a
live connection `SELECT 1` succeeds and the healthy payload carries the
counts. -/
def healthCheckRun (s : Session) (store : List RSSArticle) (cutoffTime : Nat) :
    DbResult HealthStatus :=
  let count := match getArticleCountRun s store true with
    | .ok n => n
    | .connError => 0
  match rawCall s (getRecentArticles store cutoffTime 1) with
  | .connError =>
    .ok { status := "unhealthy", total_articles := none, recent_articles_24h := none,
          database_connected := false }
  | .ok recent =>
    match rawCall s () with
    | .connError =>
      .ok { status := "unhealthy", total_articles := none, recent_articles_24h := none,
            database_connected := false }
    | .ok _ =>
      .ok { status := "healthy", total_articles := some count,
            recent_articles_24h := some recent.length, database_connected := true }

/-- `EventOperations.get_event_by_id` hits the session directly
(`event_operations.py` lines 261-263). -/
def getEventByIdRun (s : Session) (store : List EventRow) (eventId : Nat) :
    DbResult (Option EventRow) :=
  rawCall s (getEventById store eventId)

/-- `EventOperations.get_event_by_slug` hits the session directly
(`event_operations.py` lines 265-267). -/
def getEventBySlugRun (s : Session) (store : List EventRow) (slug : String) :
    DbResult (Option EventRow) :=
  rawCall s (getEventBySlug store slug)

/-- `EventOperations.mark_past_events` hits the session directly
(`event_operations.py` lines 395-409). -/
def markPastEventsRun (s : Session) (now : PyDateTime) (store : List EventRow) :
    DbResult (List EventRow × Nat) :=
  rawCall s (markPastEvents now store)

/-! ### Verification helpers and concrete fixtures -/

/-- Value of a list of decimal digit characters (left inverse of the
decimal printer, used to prove `natDec` injective). -/
def decVal (l : List Char) : Nat :=
  l.foldl (fun a c => a * 10 + (c.toNat - '0'.toNat)) 0

/-- The slug computation exactly as the corrected claim words it: the kept
character class is alphanumerics, underscore, whitespace and hyphen. -/
def claimSlugAmended (text : String) : String :=
  let s1 := (pyLower text).data.filter fun c => c.isAlphanum || c = '_' || pyIsSpace c || c = '-'
  let s2 := collapseDashSpace false s1
  let s3 := stripEnds (fun c => c = '-') s2
  String.mk (s3.take 200)

/-- A venue on file with a null `source_name` but a non-null `source_id`
(reachable: `get_or_create_venue` creates such a row when given a
`source_id` without a `source_name`). -/
def plazaVenue : VenueRow :=
  { id := 1
    name := "The Plaza"
    slug := "the-plaza"
    address_line1 := none
    address_line2 := none
    town := some "Stockport"
    postcode := some "SK1 3TA"
    latitude := none
    longitude := none
    description := none
    venue_type := none
    capacity := none
    website_url := none
    phone := none
    image_url := none
    source_name := none
    source_id := some "99" }

/-- A re-fetch of the same venue from skiddle, same name and postcode but
with full source provenance. -/
def plazaData : VenueData :=
  { name := "The Plaza"
    postcode := some "SK1 3TA"
    source_name := some "skiddle"
    source_id := some "123"
    address_line1 := none
    address_line2 := none
    town := none
    latitude := none
    longitude := none
    description := none
    venue_type := none
    capacity := none
    website_url := none
    phone := none
    image_url := none }

/-- An event row with the given id, slug and status (remaining fields
fixed). -/
def mkEventRowSimple (id : Nat) (slug status : String) : EventRow :=
  { id := id
    title := "Gig"
    slug := slug
    description := none
    short_description := none
    start_datetime := ⟨2024, 5, 1, 19, 0, 0⟩
    end_datetime := none
    doors_time := none
    venue_id := 1
    event_type := "music"
    image_url := none
    ticket_url := none
    price_min := none
    price_max := none
    is_free := false
    source_name := "skiddle"
    source_type := "api"
    source_id := none
    source_url := none
    event_hash := "h" ++ natDec id
    status := status
    is_featured := false }

/-- Two events sharing a slug, one past and one active (reachable:
`insert_event` performs no slug-uniqueness check, so two venues hosting the
same title on the same day produce the same slug). -/
def sharedSlugStore : List EventRow :=
  [mkEventRowSimple 1 "gig-2024-05-01" "past", mkEventRowSimple 2 "gig-2024-05-01" "active"]

/-- A processed article with the given id, whose `created_at` ordinal is its
id. -/
def mkArticle (i : Nat) : RSSArticle :=
  { id := i
    original_title := "Title"
    original_link := "https://example.org/" ++ natDec i
    original_summary := none
    original_source := "bbc"
    source_type := some "RSS"
    original_pubdate := none
    url_hash := hashUrl ("https://example.org/" ++ natDec i)
    created_at := i
    processed := true
    extracted_content := none
    ai_summary := none
    image_url := none
    status := "published" }

/-- A store of 47 processed articles. -/
def store47 : List RSSArticle := (List.range 47).map mkArticle

/-- Sample venue used to exercise `insert_event`. -/
def sampleVenue : VenueRow :=
  { plazaVenue with id := 3, name := "Cinema", slug := "cinema", source_id := none }

/-- Sample `event_data` dict. -/
def sampleEventData : EventData :=
  { title := "Jazz Night!"
    start_datetime := ⟨2024, 3, 9, 19, 30, 0⟩
    description := some "desc"
    short_description := none
    end_datetime := none
    doors_time := none
    event_type := some "music"
    image_url := none
    ticket_url := none
    price_min := some "10.00"
    price_max := none
    is_free := none
    source_name := "skiddle"
    source_type := "api"
    source_id := some "55"
    source_url := none }

/-- The same venue already on file with full skiddle provenance. -/
def plazaVenueSourced : VenueRow :=
  { plazaVenue with source_name := some "skiddle", source_id := some "123" }

theorem updateFirst_eq_self {α : Type} {p : α → Bool} {f : α → α} :
    ∀ {l : List α}, (∀ a ∈ l, p a = false) → updateFirst p f l = l := by
  intro l h
  induction l with
  | nil => rfl
  | cons a rest ih =>
    have ha := h a (List.mem_cons_self a rest)
    simp only [updateFirst, ha, Bool.false_eq_true, if_false, List.cons.injEq, true_and]
    exact ih fun b hb => h b (List.mem_cons_of_mem a hb)

theorem natDecAux_append (fuel : Nat) : ∀ (n : Nat) (acc : List Char),
    natDecAux fuel n acc = natDecAux fuel n [] ++ acc := by
  induction fuel with
  | zero => intro n acc; simp [natDecAux]
  | succ fuel ih =>
    intro n acc
    by_cases h : n = 0
    · simp [natDecAux, h]
    · simp only [natDecAux, if_neg h]
      rw [ih (n / 10) (Nat.digitChar (n % 10) :: acc), ih (n / 10) [Nat.digitChar (n % 10)]]
      simp

theorem decVal_digitChar : ∀ d < 10, (Nat.digitChar d).toNat - '0'.toNat = d := by decide

theorem decVal_append (l : List Char) (c : Char) :
    decVal (l ++ [c]) = decVal l * 10 + (c.toNat - '0'.toNat) := by
  simp [decVal, List.foldl_append]

theorem decVal_natDecAux : ∀ (fuel n : Nat), n ≤ fuel → decVal (natDecAux fuel n []) = n := by
  intro fuel
  induction fuel with
  | zero =>
    intro n hn
    have : n = 0 := Nat.le_zero.mp hn
    simp [this, natDecAux, decVal]
  | succ fuel ih =>
    intro n hn
    by_cases h : n = 0
    · simp [natDecAux, h, decVal]
    · have hd : n / 10 ≤ fuel := by
        have := Nat.div_lt_self (Nat.pos_of_ne_zero h) (by norm_num : 1 < 10)
        omega
      simp only [natDecAux, if_neg h]
      rw [natDecAux_append, decVal_append, ih _ hd,
        decVal_digitChar _ (Nat.mod_lt _ (by norm_num))]
      omega

theorem natDec_inj {a b : Nat} (h : natDec a = natDec b) : a = b := by
  have hdata := congrArg String.data h
  by_cases ha : a = 0 <;> by_cases hb : b = 0
  · exact ha.trans hb.symm
  · exfalso
    simp only [natDec, ha, if_pos, if_neg hb] at hdata
    have hv := decVal_natDecAux b b le_rfl
    rw [← hdata] at hv
    simp [decVal] at hv
    omega
  · exfalso
    simp only [natDec, hb, if_pos, if_neg ha] at hdata
    have hv := decVal_natDecAux a a le_rfl
    rw [hdata] at hv
    simp [decVal] at hv
    omega
  · have h1 := decVal_natDecAux a a le_rfl
    have h2 := decVal_natDecAux b b le_rfl
    simp only [natDec, if_neg ha, if_neg hb] at hdata
    rw [hdata, h2] at h1
    exact h1.symm

theorem string_append_cancel_left {s a b : String} (h : s ++ a = s ++ b) : a = b := by
  have hd := congrArg String.data h
  rw [String.data_append, String.data_append] at hd
  have := List.append_cancel_left hd
  cases a; cases b; exact congrArg String.mk this

theorem slugCand_inj (base : String) {i j : Nat} (h : slugCand base i = slugCand base j) :
    i = j :=
  natDec_inj (string_append_cancel_left h)

theorem uniquifySlugGo_spec (store : List VenueRow) (base : String) :
    ∀ (fuel counter : Nat),
    (∃ j, j < fuel ∧ (store.any fun v => v.slug == slugCand base (counter + j)) = false) →
    (store.any fun v => v.slug == uniquifySlugGo store base counter fuel) = false ∧
    ∃ k, counter ≤ k ∧ uniquifySlugGo store base counter fuel = slugCand base k := by
  intro fuel
  induction fuel with
  | zero =>
    rintro counter ⟨j, hj, -⟩
    exact absurd hj (Nat.not_lt_zero j)
  | succ fuel ih =>
    rintro counter ⟨j, hj, hfree⟩
    by_cases h : (store.any fun v => v.slug == slugCand base counter) = true
    · have hj0 : j ≠ 0 := by
        rintro rfl
        rw [Nat.add_zero] at hfree
        rw [h] at hfree
        exact Bool.noConfusion hfree
      have hrec := ih (counter + 1)
        ⟨j - 1, by omega, by
          rw [show counter + 1 + (j - 1) = counter + j by omega]
          exact hfree⟩
      refine ⟨by simpa [uniquifySlugGo, h] using hrec.1, ?_⟩
      obtain ⟨k, hk, he⟩ := hrec.2
      exact ⟨k, by omega, by simpa [uniquifySlugGo, h] using he⟩
    · have h' : (store.any fun v => v.slug == slugCand base counter) = false :=
        Bool.eq_false_iff.mpr h
      exact ⟨by simp [uniquifySlugGo, h'], ⟨counter, le_rfl, by simp [uniquifySlugGo, h']⟩⟩

theorem exists_free_cand (store : List VenueRow) (base : String) :
    ∃ j, j < store.length + 1 ∧
      (store.any fun v => v.slug == slugCand base (1 + j)) = false := by
  by_contra hcon
  push_neg at hcon
  have hmem : ∀ j < store.length + 1, slugCand base (1 + j) ∈ store.map VenueRow.slug := by
    intro j hj
    have hne := hcon j hj
    have htrue : (store.any fun v => v.slug == slugCand base (1 + j)) = true := by
      cases hB : (store.any fun v => v.slug == slugCand base (1 + j)) with
      | false => exact absurd hB hne
      | true => rfl
    rcases List.any_eq_true.mp htrue with ⟨v, hv, heq⟩
    exact List.mem_map.mpr ⟨v, hv, beq_iff_eq.mp heq⟩
  have hinj : Function.Injective fun j : Nat => slugCand base (1 + j) := by
    intro x y hxy
    have := slugCand_inj base hxy
    omega
  have hnd : ((List.range (store.length + 1)).map fun j => slugCand base (1 + j)).Nodup :=
    (List.nodup_range _).map hinj
  have hsub : ((List.range (store.length + 1)).map fun j => slugCand base (1 + j)) ⊆
      store.map VenueRow.slug := by
    intro s hs
    rcases List.mem_map.mp hs with ⟨j, hj, rfl⟩
    exact hmem j (List.mem_range.mp hj)
  have hlen := (hnd.subperm hsub).length_le
  simp at hlen

theorem uniquifySlug_spec (store : List VenueRow) (base : String) :
    (store.any fun v => v.slug == uniquifySlug store base) = false ∧
    (uniquifySlug store base = base ∨
      ∃ k, 1 ≤ k ∧ uniquifySlug store base = slugCand base k) := by
  unfold uniquifySlug
  by_cases h : (store.any fun v => v.slug == base) = true
  · rw [if_pos h]
    obtain ⟨j, hj, hfree⟩ := exists_free_cand store base
    have hgo := uniquifySlugGo_spec store base (store.length + 1) 1 ⟨j, hj, hfree⟩
    exact ⟨hgo.1, Or.inr hgo.2⟩
  · rw [if_neg h]
    exact ⟨Bool.eq_false_iff.mpr h, Or.inl rfl⟩

/-! ## Claim theorems -/

/-- C4 counterexample: on the title `"A_b"` the digest computed by
`_create_event_hash` differs from the one the claim describes — the code
lowercases the title and Python `\w` keeps the underscore, while the claim's
normalization ("strip all non-alphanumeric characters") does neither. -/
theorem C4_counterexample :
    createEventHash 1 ⟨2024, 1, 1, 0, 0, 0⟩ "A_b" ≠
      claimEventHash 1 ⟨2024, 1, 1, 0, 0, 0⟩ "A_b" := by
  decide

/-- C4 (amended): `_create_event_hash` ignores time-of-day — any two start
datetimes on the same calendar day give the same digest for every venue and
title — and the digest is the hash of the colon-joined string of the venue
id, the `YYYY-MM-DD` date, and the title normalized by lowercasing,
stripping all characters that are not alphanumeric or underscore (Python
`\w`), and truncating to 50 characters. -/
theorem C4_event_hash_day_granularity :
    (∀ (venueId : Nat) (title : String) (d1 d2 : PyDateTime),
      d1.year = d2.year → d1.month = d2.month → d1.day = d2.day →
      createEventHash venueId d1 title = createEventHash venueId d2 title) ∧
    (∀ (venueId : Nat) (dt : PyDateTime) (title : String),
      createEventHash venueId dt title =
        sha256Hex (toString venueId ++ ":" ++ dateStr dt ++ ":" ++
          String.mk (((pyLower title).data.filter fun c => c.isAlphanum || c = '_').take 50))) := by
  constructor
  · intro venueId title d1 d2 hy hm hd
    simp [createEventHash, dateStr, hy, hm, hd]
  · intro venueId dt title
    have hfun : pyIsWordChar = fun c : Char => c.isAlphanum || c = '_' := by
      funext c; rfl
    simp [createEventHash, normalizeTitle, hfun]

/-- C4 witness: two datetimes on 2024-03-09 differing only in time of day. -/
theorem C4_witness :
    (2024 = 2024 ∧ 3 = 3 ∧ 9 = 9) ∧
    createEventHash 7 ⟨2024, 3, 9, 19, 30, 0⟩ "Jazz Night!" =
      createEventHash 7 ⟨2024, 3, 9, 8, 0, 0⟩ "Jazz Night!" :=
  ⟨⟨rfl, rfl, rfl⟩,
    C4_event_hash_day_granularity.1 7 "Jazz Night!" ⟨2024, 3, 9, 19, 30, 0⟩
      ⟨2024, 3, 9, 8, 0, 0⟩ rfl rfl rfl⟩

/-- C5 counterexample: `_create_slug "a_b"` keeps the underscore (Python
`\w` includes it), while the claim's description ("strips all characters
outside alphanumerics/space/hyphen") would remove it. -/
theorem C5_counterexample :
    createSlug "a_b" ≠ claimSlug "a_b" ∧ createSlug "a_b" = "a_b" ∧ claimSlug "a_b" = "ab" := by
  refine ⟨by decide, by decide, by decide⟩

/-- C5 (amended): for every input text the slug function lowercases, strips
all characters outside alphanumerics/underscore/space/hyphen, collapses
whitespace and hyphen runs to a single hyphen, trims leading and trailing
hyphens, and truncates to 200 characters; in particular
`slugify("Stockport Council Meeting!!") = "stockport-council-meeting"` and
`slugify("   ---   ") = ""`. -/
theorem C5_slugify :
    (∀ text, createSlug text = claimSlugAmended text) ∧
    createSlug "Stockport Council Meeting!!" = "stockport-council-meeting" ∧
    createSlug "   ---   " = "" := by
  refine ⟨fun text => ?_, by decide, by decide⟩
  have hfun : (fun c : Char => pyIsWordChar c || pyIsSpace c || c = '-') =
      fun c : Char => c.isAlphanum || c = '_' || pyIsSpace c || c = '-' := by
    funext c
    simp [pyIsWordChar, Bool.or_assoc]
  simp only [createSlug, claimSlugAmended, hfun]

/-- C7: the short-query guard of `search_articles` — an empty query, or one
whose stripped length is below 2, yields `([], 0)` with no storage query
issued (third component `false`) and no exception (the function is total). -/
theorem C7_search_fails_closed (store : List RSSArticle) (q : String) (page perPage : Nat)
    (h : q = "" ∨ (pyStrip q).length < 2) :
    searchArticles store q page perPage = (([], 0), false) := by
  rcases h with h | h <;> simp [searchArticles, h]

/-- C7 witness: the length-1 query `"a"`. -/
theorem C7_witness :
    ("a" = "" ∨ (pyStrip "a").length < 2) ∧
    searchArticles [mkArticle 1] "a" 1 20 = (([], 0), false) :=
  ⟨Or.inr (by decide),
    C7_search_fails_closed [mkArticle 1] "a" 1 20 (Or.inr (by decide))⟩

/-- C10: when no stored article's URL hash matches the link, the three
enrichment operations return normally (they are total functions in the
embedding, mirroring the `if article:` guard) and leave every stored
article unchanged. -/
theorem C10_enrichment_silent_noop (store : List RSSArticle)
    (link content summary : String) (imageUrl : Option String)
    (h : ∀ a ∈ store, a.url_hash ≠ hashUrl link) :
    updateArticleContent store link content imageUrl = store ∧
    updateArticleAiSummary store link summary = store ∧
    markProcessed store link = store := by
  have hp : ∀ a ∈ store, (a.url_hash == hashUrl link) = false := by
    intro a ha
    simpa using h a ha
  exact ⟨updateFirst_eq_self hp, updateFirst_eq_self hp, updateFirst_eq_self hp⟩

/-- C10 witness: a one-article store and a link that hashes to no stored
article. -/
theorem C10_witness :
    (∀ a ∈ [mkArticle 1], a.url_hash ≠ hashUrl "https://other.example/") ∧
    (updateArticleContent [mkArticle 1] "https://other.example/" "text" none = [mkArticle 1] ∧
      updateArticleAiSummary [mkArticle 1] "https://other.example/" "sum" = [mkArticle 1] ∧
      markProcessed [mkArticle 1] "https://other.example/" = [mkArticle 1]) :=
  ⟨by decide,
    C10_enrichment_silent_noop [mkArticle 1] "https://other.example/" "text" "sum" none
      (by decide)⟩

/-- C2 counterexample: `APIOperations.get_articles_paginated`, a read
operation of the database layer, propagates the connectivity error of a
dropped connection directly (no probe, no reconnect, no retry), whereas the
probe-and-retry discipline the claim ascribes to every operation would have
recovered and returned the result. -/
theorem C2_counterexample :
    getArticlesPaginatedRun ⟨true⟩ [] 1 20 none true = .connError ∧
    runWithReconnect (fun s' => rawCall s' (getArticlesPaginated [] 1 20 none true)) ⟨true⟩ =
      .ok (getArticlesPaginated [] 1 20 none true) ∧
    DbResult.connError ≠ DbResult.ok (getArticlesPaginated [] 1 20 none true) :=
  ⟨rfl, rfl, fun h => DbResult.noConfusion h⟩

/-- C2 (amended): the probe-and-retry resilience lives only in
`DatabaseOperations`: its nine methods (`article_exists`, `insert_article`,
`update_article_content`, `update_article_ai_summary`, `mark_processed`,
`get_article_by_id`, `get_all_articles`, `update_article`,
`delete_article`) route every session access through
`_run_with_reconnect` — liveness probe, one reconnect on connectivity
error, one retry — so each succeeds from any session, even one whose
connection has dropped.  The methods added in `APIOperations` and
`EventOperations` never call `_run_with_reconnect`: on a dropped connection
`get_articles_paginated`, `get_recent_articles`, `search_articles` (for a
query passing its length guard), `get_or_create_venue`, `get_event_by_id`,
`get_event_by_slug` and `mark_past_events` propagate the connectivity
error to the caller on first failure, while those wrapping their query in
a catch-all `except` swallow it and return a fallback instead:
`insert_event` returns `None` with the store unchanged, the `APIOperations`
`get_article_by_id` returns `None`, `get_sources_with_stats` returns `[]`,
`get_article_count` returns `0`, and `health_check` returns its unhealthy
payload. -/
theorem C2_reconnect_scope :
    (∀ (s : Session) (store : List RSSArticle) (url : String),
      articleExistsRun s store url = .ok (articleExists store url)) ∧
    (∀ (s : Session) (d : ArticleData) (store : List RSSArticle),
      insertArticleRun s d store = .ok (insertArticle d store)) ∧
    (∀ (s : Session) (store : List RSSArticle) (link content : String) (img : Option String),
      updateArticleContentRun s store link content img =
        .ok (updateArticleContent store link content img)) ∧
    (∀ (s : Session) (store : List RSSArticle) (link summary : String),
      updateArticleAiSummaryRun s store link summary =
        .ok (updateArticleAiSummary store link summary)) ∧
    (∀ (s : Session) (store : List RSSArticle) (link : String),
      markProcessedRun s store link = .ok (markProcessed store link)) ∧
    (∀ (s : Session) (store : List RSSArticle) (articleId : Nat),
      dbGetArticleByIdRun s store articleId = .ok (dbGetArticleById store articleId)) ∧
    (∀ (s : Session) (store : List RSSArticle) (limit offset : Nat) (sf : Option String),
      getAllArticlesRun s store limit offset sf = .ok (getAllArticles store limit offset sf)) ∧
    (∀ (s : Session) (store : List RSSArticle) (articleId : Nat) (u : ArticleUpdate),
      updateArticleRun s store articleId u = .ok (updateArticle store articleId u)) ∧
    (∀ (s : Session) (store : List RSSArticle) (articleId : Nat),
      deleteArticleRun s store articleId = .ok (deleteArticle store articleId)) ∧
    (∀ (store : List RSSArticle) (page perPage : Nat) (src : Option String) (po : Bool),
      getArticlesPaginatedRun ⟨true⟩ store page perPage src po = .connError) ∧
    (∀ (store : List RSSArticle) (cutoffTime limit : Nat),
      getRecentArticlesRun ⟨true⟩ store cutoffTime limit = .connError) ∧
    (∀ (store : List RSSArticle) (page perPage : Nat),
      searchArticlesRun ⟨true⟩ store "ab" page perPage = .connError) ∧
    (∀ (d : VenueData) (store : List VenueRow),
      getOrCreateVenueRun ⟨true⟩ d store = .connError) ∧
    (∀ (store : List EventRow) (eventId : Nat),
      getEventByIdRun ⟨true⟩ store eventId = .connError) ∧
    (∀ (store : List EventRow) (slug : String),
      getEventBySlugRun ⟨true⟩ store slug = .connError) ∧
    (∀ (now : PyDateTime) (store : List EventRow),
      markPastEventsRun ⟨true⟩ now store = .connError) ∧
    (∀ (d : EventData) (venue : VenueRow) (store : List EventRow),
      insertEventRun ⟨true⟩ d venue store = .ok (none, store)) ∧
    (∀ (store : List RSSArticle) (articleId : Nat),
      apiGetArticleByIdRun ⟨true⟩ store articleId = .ok none) ∧
    (∀ (store : List RSSArticle),
      getSourcesWithStatsRun ⟨true⟩ store = .ok []) ∧
    (∀ (store : List RSSArticle) (po : Bool),
      getArticleCountRun ⟨true⟩ store po = .ok 0) ∧
    (∀ (store : List RSSArticle) (cutoffTime : Nat),
      healthCheckRun ⟨true⟩ store cutoffTime =
        .ok { status := "unhealthy", total_articles := none, recent_articles_24h := none,
              database_connected := false }) := by
  refine ⟨fun s store url => ?_, fun s d store => ?_, fun s store l c i => ?_,
    fun s store l a => ?_, fun s store l => ?_, fun s store i => ?_,
    fun s store l o sf => ?_, fun s store i u => ?_, fun s store i => ?_,
    fun _ _ _ _ _ => rfl, fun _ _ _ => rfl, fun _ _ _ => rfl, fun _ _ => rfl,
    fun _ _ => rfl, fun _ _ => rfl, fun _ _ => rfl, fun _ _ _ => rfl,
    fun _ _ => rfl, fun _ => rfl, fun _ _ => rfl, fun _ _ => rfl⟩
  all_goals obtain ⟨b⟩ := s
  all_goals cases b <;> rfl

/-- C1: event upsert is insert-if-absent keyed solely by `event_hash`.
If a row with the computed hash already exists, `insert_event` returns
`None` and leaves the whole store — hence every stored row's fields —
unchanged; and along any sequence of `insert_event` calls whose arguments
all yield the same hash, at most one row with that hash exists afterwards. -/
theorem C1_event_upsert_insert_if_absent :
    (∀ (d : EventData) (venue : VenueRow) (store : List EventRow),
      (∃ e ∈ store, e.event_hash = createEventHash venue.id d.start_datetime d.title) →
      insertEvent d venue store = (none, store)) ∧
    (∀ (calls : List (EventData × VenueRow)) (h : String) (store : List EventRow),
      (∀ c ∈ calls, createEventHash c.2.id c.1.start_datetime c.1.title = h) →
      store.countP (fun e => e.event_hash == h) ≤ 1 →
      (calls.foldl (fun st c => (insertEvent c.1 c.2 st).2) store).countP
        (fun e => e.event_hash == h) ≤ 1) := by
  constructor
  · intro d venue store hex
    have hany : (store.any fun e =>
        e.event_hash == createEventHash venue.id d.start_datetime d.title) = true := by
      rcases hex with ⟨e, he, heq⟩
      exact List.any_eq_true.mpr ⟨e, he, beq_iff_eq.mpr heq⟩
    simp [insertEvent, hany]
  · intro calls
    induction calls with
    | nil => intro h store _ hle; simpa using hle
    | cons c cs ih =>
      intro h store hall hle
      simp only [List.foldl_cons]
      apply ih h _ fun c' hc' => hall c' (List.mem_cons_of_mem c hc')
      have hc := hall c (List.mem_cons_self c cs)
      by_cases hany : (store.any fun e =>
          e.event_hash == createEventHash c.2.id c.1.start_datetime c.1.title) = true
      · simpa [insertEvent, hany] using hle
      · have hzero : store.countP (fun e => e.event_hash == h) = 0 := by
          rw [List.countP_eq_zero]
          intro e he hbeq
          apply hany
          refine List.any_eq_true.mpr ⟨e, he, ?_⟩
          rw [hc]
          exact hbeq
        have hnex : ¬ ∃ x ∈ store, x.event_hash = h := by
          rintro ⟨x, hx, hxe⟩
          apply hany
          exact List.any_eq_true.mpr ⟨x, hx, beq_iff_eq.mpr (by rw [hxe, hc])⟩
        simp [insertEvent, hc, hnex, List.countP_append, hzero]

/-- C1 witness: inserting the same event data twice; the second call
returns `None` with the store unchanged. -/
theorem C1_witness :
    (∃ e ∈ (insertEvent sampleEventData sampleVenue []).2,
      e.event_hash =
        createEventHash sampleVenue.id sampleEventData.start_datetime sampleEventData.title) ∧
    insertEvent sampleEventData sampleVenue (insertEvent sampleEventData sampleVenue []).2 =
      (none, (insertEvent sampleEventData sampleVenue []).2) :=
  ⟨by decide,
    C1_event_upsert_insert_if_absent.1 sampleEventData sampleVenue
      (insertEvent sampleEventData sampleVenue []).2 (by decide)⟩

/-- C9 counterexample: event slugs carry no uniqueness constraint, so a
past event can share its slug with an active one; `get_event_by_slug` then
returns the active row rather than `None`, refuting the claim as stated. -/
theorem C9_counterexample :
    ¬ (∀ e ∈ sharedSlugStore, e.status ≠ "active" →
        getEventById sharedSlugStore e.id = none ∧
        getEventBySlug sharedSlugStore e.slug = none) := by
  decide

/-- C9 (amended): for an event whose status is not `"active"`,
`get_event_by_id` returns `None` provided ids are unique (they are: `id` is
the autoincrement primary key), and `get_event_by_slug` returns `None`
provided no other active event shares the slug (slugs are not unique, so an
active slug-sharer is returned instead — see the counterexample). -/
theorem C9_single_event_lookups_active_only (store : List EventRow) (e : EventRow)
    (he : e ∈ store) (hs : e.status ≠ "active") :
    ((store.map EventRow.id).Nodup → getEventById store e.id = none) ∧
    ((∀ e' ∈ store, e'.slug = e.slug → e'.status ≠ "active") →
      getEventBySlug store e.slug = none) := by
  constructor
  · intro hnd
    rw [getEventById, List.find?_eq_none]
    intro x hx
    simp only [Bool.and_eq_true, beq_iff_eq, not_and]
    intro hid hst
    have hxe : x = e := List.inj_on_of_nodup_map hnd hx he hid
    rw [hxe] at hst
    exact hs hst
  · intro hno
    rw [getEventBySlug, List.find?_eq_none]
    intro x hx
    simp only [Bool.and_eq_true, beq_iff_eq, not_and]
    intro hslug hst
    exact hno x hx hslug hst

/-- C9 witness: a store holding only a past event; both lookups miss. -/
theorem C9_witness :
    (mkEventRowSimple 1 "gig" "past" ∈ [mkEventRowSimple 1 "gig" "past"] ∧
      (mkEventRowSimple 1 "gig" "past").status ≠ "active") ∧
    getEventById [mkEventRowSimple 1 "gig" "past"] (mkEventRowSimple 1 "gig" "past").id = none ∧
    getEventBySlug [mkEventRowSimple 1 "gig" "past"] (mkEventRowSimple 1 "gig" "past").slug =
      none :=
  ⟨⟨by decide, by decide⟩,
    (C9_single_event_lookups_active_only [mkEventRowSimple 1 "gig" "past"]
      (mkEventRowSimple 1 "gig" "past") (by decide) (by decide)).1 (by decide),
    (C9_single_event_lookups_active_only [mkEventRowSimple 1 "gig" "past"]
      (mkEventRowSimple 1 "gig" "past") (by decide) (by decide)).2 (by decide)⟩

/-- C6: pagination metadata is correct.  For route-validated parameters
(`page ≥ 1`, `1 ≤ per_page ≤ 100`): `total_pages` is the ceiling of
`total/per_page` (characterized by `total ≤ total_pages * per_page` and
`(total_pages - 1) * per_page < total`, and `0` when `total = 0`),
`has_next` iff `page < total_pages`, `has_prev` iff `page > 1`, and page `p`
of the listing holds the items of the ordered, filtered sequence at offset
`(p-1)*per_page`, at most `per_page` of them, with the reported total the
filtered count.  Concretely: 47 items with `per_page = 10` give page 5 seven
items, `total_pages = 5`, `has_next = false`, `has_prev = true`; 0 items
give `total_pages = 0` and both flags `false`. -/
theorem C6_pagination_correct (page perPage totalItems : Nat)
    (hp : 1 ≤ page) (hpp1 : 1 ≤ perPage) (hpp2 : perPage ≤ 100) :
    (totalItems ≤ (createPaginationInfo page perPage totalItems).total_pages * perPage ∧
      (0 < totalItems →
        ((createPaginationInfo page perPage totalItems).total_pages - 1) * perPage < totalItems) ∧
      (totalItems = 0 → (createPaginationInfo page perPage totalItems).total_pages = 0) ∧
      (createPaginationInfo page perPage totalItems).has_next =
        decide (page < (createPaginationInfo page perPage totalItems).total_pages) ∧
      (createPaginationInfo page perPage totalItems).has_prev = decide (1 < page) ∧
      ∀ (store : List RSSArticle) (src : Option String) (po : Bool),
        (getArticlesPaginated store page perPage src po).1 =
          ((orderByCreatedDesc (articleQuery store src po)).drop ((page - 1) * perPage)).take
            perPage ∧
        (getArticlesPaginated store page perPage src po).1.length ≤ perPage ∧
        (getArticlesPaginated store page perPage src po).2 =
          (articleQuery store src po).length) ∧
    (getArticlesPaginated store47 5 10 none true).1.length = 7 ∧
    createPaginationInfo 5 10 47 = ⟨5, 10, 47, 5, false, true⟩ ∧
    createPaginationInfo 1 10 0 = ⟨1, 10, 0, 0, false, false⟩ := by
  have hclamp : ∀ (store : List RSSArticle) (src : Option String) (po : Bool),
      getArticlesPaginated store page perPage src po =
        (((orderByCreatedDesc (articleQuery store src po)).drop ((page - 1) * perPage)).take
          perPage, (articleQuery store src po).length) := by
    intro store src po
    simp only [getArticlesPaginated]
    rw [Nat.max_eq_right hp, Nat.max_eq_right hpp1, Nat.min_eq_right hpp2]
  refine ⟨⟨?_, ?_, ?_, ?_, ?_, ?_⟩, ?_, by decide, by decide⟩
  · simp only [createPaginationInfo]
    by_cases ht : 0 < totalItems
    · rw [if_pos ht]
      have hdm := Nat.div_add_mod (totalItems + perPage - 1) perPage
      have hmod := Nat.mod_lt (totalItems + perPage - 1) (by omega : 0 < perPage)
      rw [Nat.mul_comm]
      generalize hq : perPage * ((totalItems + perPage - 1) / perPage) = m at hdm ⊢
      omega
    · rw [if_neg ht]
      omega
  · intro ht
    simp only [createPaginationInfo, if_pos ht]
    have hdm := Nat.div_add_mod (totalItems + perPage - 1) perPage
    have hmod := Nat.mod_lt (totalItems + perPage - 1) (by omega : 0 < perPage)
    rw [Nat.sub_mul, Nat.one_mul, Nat.mul_comm]
    generalize hq : perPage * ((totalItems + perPage - 1) / perPage) = m at hdm ⊢
    omega
  · intro ht
    simp [createPaginationInfo, ht]
  · simp [createPaginationInfo]
  · simp [createPaginationInfo]
  · intro store src po
    rw [hclamp store src po]
    exact ⟨rfl, List.length_take_le _ _, rfl⟩
  · have hq : (articleQuery store47 none true).length = 47 := by decide
    simp [getArticlesPaginated, orderByCreatedDesc, List.length_take, List.length_drop,
      List.length_mergeSort, hq]

/-- C6 witness: page 5 of 47 items at 10 per page. -/
theorem C6_witness :
    (1 ≤ 5 ∧ 1 ≤ 10 ∧ 10 ≤ 100) ∧
    createPaginationInfo 5 10 47 = ⟨5, 10, 47, 5, false, true⟩ ∧
    (getArticlesPaginated store47 5 10 none true).1.length = 7 :=
  ⟨⟨by decide, by decide, by decide⟩,
    (C6_pagination_correct 5 10 47 (by decide) (by decide) (by decide)).2.2.1,
    (C6_pagination_correct 5 10 47 (by decide) (by decide) (by decide)).2.1⟩

/-- C3 counterexample: on the name+postcode match the backfill branch also
overwrites a non-null `source_id`.  `plazaVenue` has `source_name = None`
and `source_id = "99"`; re-fetching with skiddle provenance rewrites
`source_id` to `"123"`, changing a field that was not null — contradicting
"returned unchanged except that null source fields are backfilled". -/
theorem C3_counterexample :
    plazaVenue.source_id = some "99" ∧ plazaVenue.source_id ≠ none ∧
    (getOrCreateVenue plazaData [plazaVenue]).1.source_id = some "123" ∧
    (getOrCreateVenue plazaData [plazaVenue]).1.source_id ≠ plazaVenue.source_id := by
  refine ⟨by decide, by decide, by decide, by decide⟩

/-- C3 (amended): venue dedup follows the stated priority order: a
`(source_name, source_id)` match returns that row with no field changed and
the store untouched; otherwise a `(name, postcode)` match returns that row,
unchanged when the input has no source name or the row already has one, and
otherwise with `source_name` backfilled from the input and `source_id`
overwritten from the input (empty string when absent), even if it was not
null; only otherwise is a new row appended, built from the input with a
uniqueness-checked slug — the base slug when free, else the first free
`base-k` suffix (`k = 1, 2, …`) — which matches no existing venue's slug. -/
theorem C3_venue_dedup_priority :
    (∀ (d : VenueData) (store : List VenueRow) (v : VenueRow),
      truthy d.source_name = true → truthy d.source_id = true →
      (store.find? fun w => w.source_name == d.source_name && w.source_id == d.source_id) =
        some v →
      getOrCreateVenue d store = (v, store)) ∧
    (∀ (d : VenueData) (store : List VenueRow) (v : VenueRow),
      (truthy d.source_name = false ∨ truthy d.source_id = false ∨
        (store.find? fun w => w.source_name == d.source_name && w.source_id == d.source_id) =
          none) →
      (d.name != "") = true → truthy d.postcode = true →
      (store.find? fun w => w.name == d.name && w.postcode == d.postcode) = some v →
      ((truthy d.source_name = false ∨ truthy v.source_name = true) →
        getOrCreateVenue d store = (v, store)) ∧
      (truthy d.source_name = true → truthy v.source_name = false →
        getOrCreateVenue d store =
          ({ v with source_name := d.source_name, source_id := some (d.source_id.getD "") },
            updateFirst (fun w => w.name == d.name && w.postcode == d.postcode)
              (fun _ =>
                { v with source_name := d.source_name, source_id := some (d.source_id.getD "") })
              store))) ∧
    (∀ (d : VenueData) (store : List VenueRow),
      (truthy d.source_name = false ∨ truthy d.source_id = false ∨
        (store.find? fun w => w.source_name == d.source_name && w.source_id == d.source_id) =
          none) →
      ((d.name != "") = false ∨ truthy d.postcode = false ∨
        (store.find? fun w => w.name == d.name && w.postcode == d.postcode) = none) →
      getOrCreateVenue d store =
        (buildVenue d (uniquifySlug store (createSlug d.name)) (nextId (store.map VenueRow.id)),
          store ++
            [buildVenue d (uniquifySlug store (createSlug d.name))
              (nextId (store.map VenueRow.id))]) ∧
      (store.any fun v => v.slug == uniquifySlug store (createSlug d.name)) = false ∧
      (uniquifySlug store (createSlug d.name) = createSlug d.name ∨
        ∃ k, 1 ≤ k ∧
          uniquifySlug store (createSlug d.name) = slugCand (createSlug d.name) k)) := by
  refine ⟨?_, ?_, ?_⟩
  · intro d store v h1 h2 hfind
    simp [getOrCreateVenue, h1, h2, hfind]
  · intro d store v hsrc hname hpc hfind
    constructor
    · intro hcase
      rcases hsrc with h | h | h <;> rcases hcase with hc | hc <;>
        simp [getOrCreateVenue, h, hc, hname, hpc, hfind]
    · intro hsn hvn
      rcases hsrc with h | h | h
      · rw [h] at hsn
        exact Bool.noConfusion hsn
      · simp [getOrCreateVenue, hsn, h, hname, hpc, hfind, hvn]
      · simp [getOrCreateVenue, hsn, h, hname, hpc, hfind, hvn]
  · intro d store hsrc hnp
    refine ⟨?_, (uniquifySlug_spec store (createSlug d.name)).1,
      (uniquifySlug_spec store (createSlug d.name)).2⟩
    rcases hsrc with h | h | h <;> rcases hnp with h' | h' | h' <;>
      simp [getOrCreateVenue, h, h']

/-- C3 witness: a second fetch with identical skiddle provenance returns
the stored row with no field changed. -/
theorem C3_witness :
    (truthy plazaData.source_name = true ∧ truthy plazaData.source_id = true ∧
      ([plazaVenueSourced].find? fun w =>
        w.source_name == plazaData.source_name && w.source_id == plazaData.source_id) =
        some plazaVenueSourced) ∧
    getOrCreateVenue plazaData [plazaVenueSourced] = (plazaVenueSourced, [plazaVenueSourced]) :=
  ⟨⟨by decide, by decide, by decide⟩,
    C3_venue_dedup_priority.1 plazaData [plazaVenueSourced] plazaVenueSourced
      (by decide) (by decide) (by decide)⟩

end ViaductEcho
